import Mathlib

/-!
Verification of the Linux window-controls subsystem
(`crates/title_bar/src/platforms/platform_linux.rs`).

The Rust source is shallowly embedded below: enums become inductives, the
global `ControlsState` becomes an explicit record threaded through the
handlers, the opaque `Box<dyn Action>` close action becomes a type
parameter `α`, and the effectful click handler becomes a pure function
returning the updated state together with the list of window commands it
issues; `None` models the `expect` panic of a Close control without a
close action.
-/

namespace PlatformLinux

/-- Embeds `enum WindowControlType { Minimize, Restore, Maximize, Close }`. -/
inductive WindowControlType where
  | Minimize
  | Restore
  | Maximize
  | Close
deriving DecidableEq, Repr, Fintype

/-- Embeds `enum WindowControlState { Normal, Hover, Active, Disable }`. -/
inductive WindowControlState where
  | Normal
  | Hover
  | Active
  | Disable
deriving DecidableEq, Repr, Fintype

/-- Embeds `gpui::WindowAppearance` (the four variants matched in
`WindowControl::icon`). -/
inductive WindowAppearance where
  | Light
  | VibrantLight
  | Dark
  | VibrantDark
deriving DecidableEq, Repr, Fintype

/-- Embeds `WindowControlType::name`. -/
def WindowControlType.name : WindowControlType → String
  | WindowControlType.Minimize => "minimize"
  | WindowControlType.Restore => "restore"
  | WindowControlType.Maximize => "maximize"
  | WindowControlType.Close => "close"

/-- Embeds `WindowControlState::name`. -/
def WindowControlState.name : WindowControlState → String
  | WindowControlState.Normal => "normal"
  | WindowControlState.Hover => "hover"
  | WindowControlState.Active => "active"
  | WindowControlState.Disable => "disable"

/-- Embeds `struct ControlsState` (the process-wide interaction-state store). -/
structure ControlsState where
  minimize_control_state : WindowControlState
  maximize_or_restore_control_state : WindowControlState
  close_control_state : WindowControlState
deriving DecidableEq, Repr

/-- Embeds `impl Default for ControlsState`. -/
def ControlsState.default : ControlsState :=
  { minimize_control_state := WindowControlState.Normal,
    maximize_or_restore_control_state := WindowControlState.Normal,
    close_control_state := WindowControlState.Normal }

/-- Embeds `struct WindowControl`; the opaque boxed close action is the type
parameter `α`, and `ElementId` is modelled as a string. -/
structure WindowControl (α : Type) where
  id : String
  control_type : WindowControlType
  control_state : WindowControlState
  close_action : Option α
deriving DecidableEq, Repr

/-- Embeds `WindowControl::new` (always stores `close_action = None`). -/
def WindowControl.new {α : Type} (id : String) (control_type : WindowControlType)
    (control_state : WindowControlState) : WindowControl α :=
  { id := id, control_type := control_type, control_state := control_state,
    close_action := none }

/-- Embeds `WindowControl::new_close` (stores the supplied close action). -/
def WindowControl.new_close {α : Type} (id : String) (control_type : WindowControlType)
    (control_state : WindowControlState) (close_action : α) : WindowControl α :=
  { id := id, control_type := control_type, control_state := control_state,
    close_action := some close_action }

/-- The `let style = match appearance { .. }` binding inside
`WindowControl::icon`, lifted to a named function. -/
def appearanceStyle : WindowAppearance → String
  | WindowAppearance.Light => "light"
  | WindowAppearance.VibrantLight => "light"
  | WindowAppearance.Dark => "dark"
  | WindowAppearance.VibrantDark => "dark"

/-- Embeds `WindowControl::icon`. -/
def WindowControl.icon {α : Type} (self : WindowControl α) (window_active : Bool)
    (appearance : WindowAppearance) : String :=
  let style := appearanceStyle appearance
  if !window_active || self.control_state = WindowControlState.Disable then
    "icons/window_controls/backdrop-" ++ style ++ ".svg"
  else
    "icons/window_controls/" ++ self.control_type.name ++ "-" ++
      self.control_state.name ++ "-" ++ style ++ ".svg"

/-- Embeds the `update_control_state` closure inside `WindowControl::render`:
writes `new_state` into the slot selected by `control_type` (Restore and
Maximize share the `maximize_or_restore_control_state` slot). -/
def update_control_state (control_type : WindowControlType) (states : ControlsState)
    (new_state : WindowControlState) : ControlsState :=
  match control_type with
  | WindowControlType.Minimize =>
      { states with minimize_control_state := new_state }
  | WindowControlType.Restore | WindowControlType.Maximize =>
      { states with maximize_or_restore_control_state := new_state }
  | WindowControlType.Close =>
      { states with close_control_state := new_state }

/-- The stored-state slot a control type is bound to; Restore and Maximize
are bound to the same slot. -/
inductive ControlSlot where
  | MinimizeSlot
  | MaximizeOrRestoreSlot
  | CloseSlot
deriving DecidableEq, Repr, Fintype

/-- Which slot of `ControlsState` a control type reads and writes, following
the match arms of `update_control_state`. -/
def WindowControlType.slot : WindowControlType → ControlSlot
  | WindowControlType.Minimize => ControlSlot.MinimizeSlot
  | WindowControlType.Restore | WindowControlType.Maximize =>
      ControlSlot.MaximizeOrRestoreSlot
  | WindowControlType.Close => ControlSlot.CloseSlot

/-- Reads the slot of `ControlsState` associated with a control type (the
read counterpart of `update_control_state`). -/
def ControlsState.get (states : ControlsState) : WindowControlType → WindowControlState
  | WindowControlType.Minimize => states.minimize_control_state
  | WindowControlType.Restore | WindowControlType.Maximize =>
      states.maximize_or_restore_control_state
  | WindowControlType.Close => states.close_control_state

/-- Embeds the `on_hover` handler in `WindowControl::render`: maps the hover
flag to Hover or Normal and writes it through `update_control_state`. -/
def WindowControl.on_hover {α : Type} (self : WindowControl α) (hover : Bool)
    (states : ControlsState) : ControlsState :=
  let state := match hover with
    | true => WindowControlState.Hover
    | false => WindowControlState.Normal
  update_control_state self.control_type states state

/-- Embeds the `on_mouse_down` (left button) handler in
`WindowControl::render`: writes Active unconditionally. -/
def WindowControl.on_mouse_down {α : Type} (self : WindowControl α)
    (states : ControlsState) : ControlsState :=
  update_control_state self.control_type states WindowControlState.Active

/-- A window command issued by the click handler: `window.minimize_window()`,
`window.zoom_window()`, or `window.dispatch_action(..)`. -/
inductive WindowEffect (α : Type) where
  | MinimizeWindow
  | ZoomWindow
  | DispatchAction (a : α)
deriving DecidableEq, Repr

/-- Embeds the `on_click` handler in `WindowControl::render`: the stored
state is reset to Normal first, then the match on `control_type` issues
exactly one window command. A Close control whose `close_action` is `None`
hits the `expect` panic, modelled as `none`. -/
def WindowControl.on_click {α : Type} (self : WindowControl α) (states : ControlsState) :
    Option (ControlsState × List (WindowEffect α)) :=
  let states := update_control_state self.control_type states WindowControlState.Normal
  match self.control_type with
  | WindowControlType.Minimize => some (states, [WindowEffect.MinimizeWindow])
  | WindowControlType.Restore => some (states, [WindowEffect.ZoomWindow])
  | WindowControlType.Maximize => some (states, [WindowEffect.ZoomWindow])
  | WindowControlType.Close =>
      match self.close_action with
      | some a => some (states, [WindowEffect.DispatchAction a])
      | none => none

/-- Embeds `struct LinuxWindowControls` (holds the caller-supplied close
action). -/
structure LinuxWindowControls (α : Type) where
  close_window_action : α

/-- Embeds `LinuxWindowControls::render`: reads the global `ControlsState`
via `default_global` (inserting the default when absent), then builds the
three children. Returns the children together with the global state after
the render pass. -/
def LinuxWindowControls.render {α : Type} (self : LinuxWindowControls α)
    (window_is_maximized : Bool) (global : Option ControlsState) :
    List (WindowControl α) × ControlsState :=
  let controls_state := global.getD ControlsState.default
  ([ WindowControl.new "minimize" WindowControlType.Minimize
       controls_state.minimize_control_state,
     WindowControl.new "maximize-or-restore"
       (if window_is_maximized then WindowControlType.Restore
        else WindowControlType.Maximize)
       controls_state.maximize_or_restore_control_state,
     WindowControl.new_close "close" WindowControlType.Close
       controls_state.close_control_state self.close_window_action ],
   controls_state)

/-- A pointer event delivered to the control bound to a given type, as wired
in `WindowControl::render` (hover carries the enter/exit flag). -/
inductive UIEvent where
  | HoverEvent (t : WindowControlType) (hovered : Bool)
  | MouseDownEvent (t : WindowControlType)
  | ClickEvent (t : WindowControlType)
deriving DecidableEq, Repr

/-- The effect of one pointer event on the stored `ControlsState`, following
the handlers of `WindowControl::render`: hover writes Hover or Normal,
mouse-down writes Active, click writes Normal (before issuing its command). -/
def stepState (states : ControlsState) : UIEvent → ControlsState
  | UIEvent.HoverEvent t hovered =>
      update_control_state t states
        (match hovered with
         | true => WindowControlState.Hover
         | false => WindowControlState.Normal)
  | UIEvent.MouseDownEvent t =>
      update_control_state t states WindowControlState.Active
  | UIEvent.ClickEvent t =>
      update_control_state t states WindowControlState.Normal

/-- Runs a sequence of pointer events against the stored state. -/
def runEvents (states : ControlsState) (evs : List UIEvent) : ControlsState :=
  evs.foldl stepState states

/-! ## Helper lemmas -/

theorem get_update_self (s : ControlsState) (t : WindowControlType)
    (v : WindowControlState) : (update_control_state t s v).get t = v := by
  cases t <;> rfl

theorem get_update_other (s : ControlsState) (t u : WindowControlType)
    (v : WindowControlState) (h : u.slot ≠ t.slot) :
    (update_control_state t s v).get u = s.get u := by
  cases t <;> cases u <;> first | rfl | exact absurd rfl h

theorem stepState_writes (s : ControlsState) (ev : UIEvent) :
    ∃ t v, stepState s ev = update_control_state t s v ∧
      v ≠ WindowControlState.Disable := by
  cases ev with
  | HoverEvent t hovered =>
      cases hovered
      · exact ⟨t, WindowControlState.Normal, rfl, by decide⟩
      · exact ⟨t, WindowControlState.Hover, rfl, by decide⟩
  | MouseDownEvent t => exact ⟨t, WindowControlState.Active, rfl, by decide⟩
  | ClickEvent t => exact ⟨t, WindowControlState.Normal, rfl, by decide⟩

theorem icon_fields_ne_disable :
    ∀ (ty : WindowControlType) (st : WindowControlState) (window_active : Bool)
      (appearance : WindowAppearance) (t : WindowControlType),
      WindowControl.icon (⟨"", ty, st, none⟩ : WindowControl Unit)
          window_active appearance ≠
        "icons/window_controls/" ++ t.name ++ "-disable-" ++
          appearanceStyle appearance ++ ".svg" := by
  decide

theorem update_noDisable (s : ControlsState) (t : WindowControlType)
    (v : WindowControlState) (hv : v ≠ WindowControlState.Disable)
    (h1 : s.minimize_control_state ≠ WindowControlState.Disable)
    (h2 : s.maximize_or_restore_control_state ≠ WindowControlState.Disable)
    (h3 : s.close_control_state ≠ WindowControlState.Disable) :
    (update_control_state t s v).minimize_control_state ≠ WindowControlState.Disable ∧
    (update_control_state t s v).maximize_or_restore_control_state ≠ WindowControlState.Disable ∧
    (update_control_state t s v).close_control_state ≠ WindowControlState.Disable := by
  cases t <;> exact ⟨by first | exact hv | exact h1,
                     by first | exact hv | exact h2,
                     by first | exact hv | exact h3⟩

/-! ## Claims -/

/-- C1: for every control type and interaction state, if the window lacks
focus or the control's state is Disable, `WindowControl::icon` returns
exactly `icons/window_controls/backdrop-{style}.svg`, where the style is
"light" for Light and VibrantLight and "dark" for Dark and VibrantDark;
the control's type and state do not appear in the result. -/
theorem icon_backdrop_when_unfocused_or_disabled {α : Type} (c : WindowControl α)
    (window_active : Bool) (appearance : WindowAppearance) :
    ((window_active = false ∨ c.control_state = WindowControlState.Disable) →
      c.icon window_active appearance =
        "icons/window_controls/backdrop-" ++ appearanceStyle appearance ++ ".svg") ∧
    appearanceStyle WindowAppearance.Light = "light" ∧
    appearanceStyle WindowAppearance.VibrantLight = "light" ∧
    appearanceStyle WindowAppearance.Dark = "dark" ∧
    appearanceStyle WindowAppearance.VibrantDark = "dark" := by
  refine ⟨?_, rfl, rfl, rfl, rfl⟩
  intro h
  unfold WindowControl.icon
  rcases h with h | h
  · subst h
    simp
  · rw [h]
    simp

/-- C1 witness: a Minimize control in Hover state on an unfocused light
window resolves to the light backdrop path. -/
theorem icon_backdrop_witness :
    (WindowControl.new "minimize" WindowControlType.Minimize
        WindowControlState.Hover : WindowControl Nat).icon false
        WindowAppearance.Light =
      "icons/window_controls/backdrop-" ++ appearanceStyle WindowAppearance.Light ++ ".svg" :=
  (icon_backdrop_when_unfocused_or_disabled _ false WindowAppearance.Light).1
    (Or.inl rfl)

/-- C2: when the window has focus and the control's state is not Disable,
`WindowControl::icon` returns exactly
`icons/window_controls/{type}-{state}-{style}.svg` with the canonical
lower-case names minimize/restore/maximize/close and
normal/hover/active/disable. -/
theorem icon_focused_path {α : Type} (c : WindowControl α)
    (appearance : WindowAppearance) :
    (c.control_state ≠ WindowControlState.Disable →
      c.icon true appearance =
        "icons/window_controls/" ++ c.control_type.name ++ "-" ++
          c.control_state.name ++ "-" ++ appearanceStyle appearance ++ ".svg") ∧
    WindowControlType.name WindowControlType.Minimize = "minimize" ∧
    WindowControlType.name WindowControlType.Restore = "restore" ∧
    WindowControlType.name WindowControlType.Maximize = "maximize" ∧
    WindowControlType.name WindowControlType.Close = "close" ∧
    WindowControlState.name WindowControlState.Normal = "normal" ∧
    WindowControlState.name WindowControlState.Hover = "hover" ∧
    WindowControlState.name WindowControlState.Active = "active" ∧
    WindowControlState.name WindowControlState.Disable = "disable" := by
  refine ⟨?_, rfl, rfl, rfl, rfl, rfl, rfl, rfl, rfl⟩
  intro h
  unfold WindowControl.icon
  simp [h]

/-- C2 witness: a focused Minimize control in Hover state on a dark window
resolves to `icons/window_controls/minimize-hover-dark.svg`. -/
theorem icon_focused_path_witness :
    (WindowControl.new "minimize" WindowControlType.Minimize
        WindowControlState.Hover : WindowControl Nat).icon true
        WindowAppearance.Dark =
      "icons/window_controls/minimize-hover-dark.svg" := by
  have h := (icon_focused_path
      (WindowControl.new "minimize" WindowControlType.Minimize
        WindowControlState.Hover : WindowControl Nat)
      WindowAppearance.Dark).1 (by decide)
  rw [h]
  rfl

/-- C3: a click resets the clicked control's stored slot to Normal and
issues exactly one window command: `minimize_window` for a Minimize
control, and the same `zoom_window` command for both Restore and Maximize
controls. -/
theorem click_resets_then_acts {α : Type} (c : WindowControl α) (s : ControlsState) :
    (c.control_type = WindowControlType.Minimize →
      ∃ s2, c.on_click s = some (s2, [WindowEffect.MinimizeWindow]) ∧
        s2.get c.control_type = WindowControlState.Normal) ∧
    ((c.control_type = WindowControlType.Restore ∨
      c.control_type = WindowControlType.Maximize) →
      ∃ s2, c.on_click s = some (s2, [WindowEffect.ZoomWindow]) ∧
        s2.get c.control_type = WindowControlState.Normal) := by
  constructor
  · intro h
    refine ⟨update_control_state c.control_type s WindowControlState.Normal, ?_, ?_⟩
    · unfold WindowControl.on_click
      rw [h]
    · exact get_update_self s c.control_type WindowControlState.Normal
  · intro h
    refine ⟨update_control_state c.control_type s WindowControlState.Normal, ?_, ?_⟩
    · unfold WindowControl.on_click
      rcases h with h | h <;> rw [h]
    · exact get_update_self s c.control_type WindowControlState.Normal

/-- C3 witness: clicking a Minimize control whose stored slot is Active
yields the Normal slot and a single minimize command. -/
theorem click_resets_then_acts_witness :
    ∃ s2, (WindowControl.new "minimize" WindowControlType.Minimize
        WindowControlState.Active : WindowControl Nat).on_click
        ControlsState.default = some (s2, [WindowEffect.MinimizeWindow]) ∧
      s2.get (WindowControl.new "minimize" WindowControlType.Minimize
        WindowControlState.Active : WindowControl Nat).control_type =
        WindowControlState.Normal :=
  (click_resets_then_acts _ ControlsState.default).1 rfl

/-- C4: clicking a Close control with no stored close action hits the
`expect` panic (modelled as `none`); clicking one with a stored action
dispatches exactly that action; clicking any non-Close control never
fails. -/
theorem close_click_failure_mode {α : Type} (c : WindowControl α) (s : ControlsState) :
    (c.control_type = WindowControlType.Close → c.close_action = none →
      c.on_click s = none) ∧
    (∀ a : α, c.control_type = WindowControlType.Close → c.close_action = some a →
      c.on_click s =
        some (update_control_state c.control_type s WindowControlState.Normal,
              [WindowEffect.DispatchAction a])) ∧
    (c.control_type ≠ WindowControlType.Close → (c.on_click s).isSome = true) := by
  refine ⟨?_, ?_, ?_⟩
  · intro ht ha
    unfold WindowControl.on_click
    rw [ht, ha]
  · intro a ht ha
    unfold WindowControl.on_click
    rw [ht, ha]
  · intro ht
    unfold WindowControl.on_click
    cases h : c.control_type with
    | Close => exact absurd h ht
    | Minimize => rfl
    | Restore => rfl
    | Maximize => rfl

/-- C4 witness: a Close control built by `WindowControl::new` (no action)
fails on click, and one built by `new_close` with action `7` dispatches
exactly that action. -/
theorem close_click_failure_mode_witness :
    (WindowControl.new "close" WindowControlType.Close
        WindowControlState.Normal : WindowControl Nat).on_click
        ControlsState.default = none ∧
    (WindowControl.new_close "close" WindowControlType.Close
        WindowControlState.Normal (7 : Nat)).on_click ControlsState.default =
      some (update_control_state WindowControlType.Close ControlsState.default
              WindowControlState.Normal,
            [WindowEffect.DispatchAction (7 : Nat)]) :=
  ⟨(close_click_failure_mode (WindowControl.new "close" WindowControlType.Close
      WindowControlState.Normal : WindowControl Nat) ControlsState.default).1 rfl rfl,
   (close_click_failure_mode (WindowControl.new_close "close"
      WindowControlType.Close WindowControlState.Normal (7 : Nat))
      ControlsState.default).2.1 7 rfl rfl⟩

/-- C5: `update_control_state` writes exactly the slot bound to the given
control type and leaves every other slot unchanged; Restore and Maximize
are bound to the same slot, so writing through either is the same write. -/
theorem update_isolation (s : ControlsState) (t : WindowControlType)
    (v : WindowControlState) :
    (update_control_state t s v).get t = v ∧
    (∀ u : WindowControlType, u.slot ≠ t.slot →
      (update_control_state t s v).get u = s.get u) ∧
    update_control_state WindowControlType.Restore s v =
      update_control_state WindowControlType.Maximize s v := by
  exact ⟨get_update_self s t v, fun u h => get_update_other s t u v h, rfl⟩

/-- C5 witness: writing Hover to the Minimize slot of the default store
reads back Hover from Minimize and leaves the Close slot at Normal. -/
theorem update_isolation_witness :
    (update_control_state WindowControlType.Minimize ControlsState.default
        WindowControlState.Hover).get WindowControlType.Minimize =
      WindowControlState.Hover ∧
    (update_control_state WindowControlType.Minimize ControlsState.default
        WindowControlState.Hover).get WindowControlType.Close =
      ControlsState.default.get WindowControlType.Close :=
  ⟨(update_isolation ControlsState.default WindowControlType.Minimize
      WindowControlState.Hover).1,
   (update_isolation ControlsState.default WindowControlType.Minimize
      WindowControlState.Hover).2.1 WindowControlType.Close (by decide)⟩

/-- C6: every pointer handler writes an absolute state regardless of the
current one — hover-enter yields Hover, hover-exit yields Normal, left
mouse-down yields Active — and hover-enter followed by hover-exit always
leaves the control's slot at Normal, whatever state preceded it. -/
theorem handlers_write_absolute_states {α : Type} (c : WindowControl α)
    (s : ControlsState) :
    (c.on_hover true s).get c.control_type = WindowControlState.Hover ∧
    (c.on_hover false s).get c.control_type = WindowControlState.Normal ∧
    (c.on_mouse_down s).get c.control_type = WindowControlState.Active ∧
    (c.on_hover false (c.on_hover true s)).get c.control_type =
      WindowControlState.Normal :=
  ⟨get_update_self s c.control_type WindowControlState.Hover,
   get_update_self s c.control_type WindowControlState.Normal,
   get_update_self s c.control_type WindowControlState.Active,
   get_update_self _ c.control_type WindowControlState.Normal⟩

/-- C7: no internal event path writes Disable: from a store whose three
slots are all non-Disable, any sequence of hover, mouse-down and click
events leaves all three slots non-Disable. -/
theorem no_event_writes_disable (s : ControlsState) (evs : List UIEvent)
    (h1 : s.minimize_control_state ≠ WindowControlState.Disable)
    (h2 : s.maximize_or_restore_control_state ≠ WindowControlState.Disable)
    (h3 : s.close_control_state ≠ WindowControlState.Disable) :
    (runEvents s evs).minimize_control_state ≠ WindowControlState.Disable ∧
    (runEvents s evs).maximize_or_restore_control_state ≠ WindowControlState.Disable ∧
    (runEvents s evs).close_control_state ≠ WindowControlState.Disable := by
  induction evs generalizing s with
  | nil => exact ⟨h1, h2, h3⟩
  | cons ev evs ih =>
      obtain ⟨t, v, hstep, hv⟩ := stepState_writes s ev
      have hpres := update_noDisable s t v hv h1 h2 h3
      have hrun : runEvents s (ev :: evs) = runEvents (stepState s ev) evs := rfl
      rw [hrun, hstep]
      exact ih _ hpres.1 hpres.2.1 hpres.2.2

/-- C7 witness: from the default store, a hover-enter, mouse-down, click,
hover-exit sequence on each control leaves every slot non-Disable. -/
theorem no_event_writes_disable_witness :
    (runEvents ControlsState.default
        [UIEvent.HoverEvent WindowControlType.Minimize true,
         UIEvent.MouseDownEvent WindowControlType.Minimize,
         UIEvent.ClickEvent WindowControlType.Minimize,
         UIEvent.HoverEvent WindowControlType.Restore true,
         UIEvent.HoverEvent WindowControlType.Restore false,
         UIEvent.MouseDownEvent WindowControlType.Close,
         UIEvent.ClickEvent WindowControlType.Close]).minimize_control_state ≠
      WindowControlState.Disable ∧
    (runEvents ControlsState.default
        [UIEvent.HoverEvent WindowControlType.Minimize true,
         UIEvent.MouseDownEvent WindowControlType.Minimize,
         UIEvent.ClickEvent WindowControlType.Minimize,
         UIEvent.HoverEvent WindowControlType.Restore true,
         UIEvent.HoverEvent WindowControlType.Restore false,
         UIEvent.MouseDownEvent WindowControlType.Close,
         UIEvent.ClickEvent WindowControlType.Close]).maximize_or_restore_control_state ≠
      WindowControlState.Disable ∧
    (runEvents ControlsState.default
        [UIEvent.HoverEvent WindowControlType.Minimize true,
         UIEvent.MouseDownEvent WindowControlType.Minimize,
         UIEvent.ClickEvent WindowControlType.Minimize,
         UIEvent.HoverEvent WindowControlType.Restore true,
         UIEvent.HoverEvent WindowControlType.Restore false,
         UIEvent.MouseDownEvent WindowControlType.Close,
         UIEvent.ClickEvent WindowControlType.Close]).close_control_state ≠
      WindowControlState.Disable :=
  no_event_writes_disable ControlsState.default _
    (by decide) (by decide) (by decide)

/-- C8: `LinuxWindowControls::render` gives the second child the Restore
type exactly when the window is maximized and the Maximize type otherwise,
and the stored `ControlsState` after the render pass is unchanged. -/
theorem render_selects_second_type {α : Type} (a : α) (window_is_maximized : Bool)
    (s : ControlsState) :
    (Option.map (fun c => c.control_type)
        (((LinuxWindowControls.mk a).render window_is_maximized (some s)).1)[1]?) =
      some (if window_is_maximized then WindowControlType.Restore
            else WindowControlType.Maximize) ∧
    ((LinuxWindowControls.mk a).render window_is_maximized (some s)).2 = s := by
  cases window_is_maximized <;> exact ⟨rfl, rfl⟩

/-- C9: the icon resolver never produces a path of the shape
`icons/window_controls/{type}-disable-{style}.svg`: whenever the state is
Disable the backdrop branch is taken, and otherwise the state name is not
"disable". -/
theorem icon_never_disable_path {α : Type} (c : WindowControl α)
    (window_active : Bool) (appearance : WindowAppearance)
    (t : WindowControlType) :
    c.icon window_active appearance ≠
      "icons/window_controls/" ++ t.name ++ "-disable-" ++
        appearanceStyle appearance ++ ".svg" := by
  obtain ⟨id, ty, st, ca⟩ := c
  have heq : WindowControl.icon (⟨id, ty, st, ca⟩ : WindowControl α)
      window_active appearance =
      WindowControl.icon (⟨"", ty, st, none⟩ : WindowControl Unit)
        window_active appearance := rfl
  rw [heq]
  exact icon_fields_ne_disable ty st window_active appearance t

/-- C10: `WindowControl::new` accepts any control type, including Close, and
always stores an absent close action; no check happens at construction, so
a Close control built this way only fails later, when its click handler
runs, while hover and mouse-down on it, and clicks on non-Close controls,
never fail. -/
theorem new_unchecked_close_fails_only_on_click (α : Type) (id : String)
    (t : WindowControlType) (st : WindowControlState) (s : ControlsState) :
    (WindowControl.new id t st : WindowControl α).close_action = none ∧
    (t = WindowControlType.Close →
      (WindowControl.new id t st : WindowControl α).on_click s = none) ∧
    (t ≠ WindowControlType.Close →
      ((WindowControl.new id t st : WindowControl α).on_click s).isSome = true) := by
  refine ⟨rfl, ?_, ?_⟩
  · intro h
    subst h
    rfl
  · intro h
    unfold WindowControl.on_click
    cases t with
    | Close => exact absurd rfl h
    | Minimize => rfl
    | Restore => rfl
    | Maximize => rfl

/-- C10 witness: a Close control from `new` has no action and fails on
click; a Minimize control from `new` succeeds on click. -/
theorem new_unchecked_close_witness :
    (WindowControl.new "close" WindowControlType.Close
        WindowControlState.Normal : WindowControl Nat).close_action = none ∧
    (WindowControl.new "close" WindowControlType.Close
        WindowControlState.Normal : WindowControl Nat).on_click
        ControlsState.default = none ∧
    ((WindowControl.new "minimize" WindowControlType.Minimize
        WindowControlState.Normal : WindowControl Nat).on_click
        ControlsState.default).isSome = true :=
  ⟨(new_unchecked_close_fails_only_on_click Nat "close" WindowControlType.Close
      WindowControlState.Normal ControlsState.default).1,
   (new_unchecked_close_fails_only_on_click Nat "close" WindowControlType.Close
      WindowControlState.Normal ControlsState.default).2.1 rfl,
   (new_unchecked_close_fails_only_on_click Nat "minimize"
      WindowControlType.Minimize WindowControlState.Normal
      ControlsState.default).2.2 (by decide)⟩

end PlatformLinux
